import Mathlib

/-!
Verification of the report module of the rust-web-benchmarks repository
(src/bench-bot/src/report.rs).

The module parses the stdout of an HTTP load-testing run into a `Metrics`
record via five independent regular-expression locators, wraps it together
with a framework name and a memory figure into a `Report`, and renders a
list of reports as a markdown table.

The regexes used by the source are simple enough that each is embedded as
a deterministic scanner over `List Char`:

  Latency\s+(\d+\.\d+us)\s+(\d+\.\d+us)\s+(\d+\.\d+ms)   -> latencyAt
  (\d+) requests in                                       -> totalRequestsAt
  , (\d+\.\d+GB) read                                     -> totalDataReadAt
  Requests/sec: (\d+\.\d+)                                -> reqPerSecAt
  Transfer/sec:\s+(\d+\.\d+MB)                            -> transferPerSecAt

In each of these patterns every greedy repetition (`\d+`, `\s+`) is
followed by a character that its class cannot match (a digit is never
followed by `.`, `u`, `m`, `G`, `M` or space inside the class, whitespace
is never followed by a digit), so Perl-style leftmost-first matching with
backtracking coincides with maximal munch at each candidate start
position, and a leftmost scan over start positions (`findFirst`) is an
exact model of `Regex::captures`.  `\s` is modelled by its ASCII part
(space, tab, newline, carriage return, vertical tab, form feed); no input
used in any theorem contains non-ASCII whitespace.
-/

/-- Whitespace class of the regex `\s` (ASCII part). -/
def isWs (c : Char) : Bool :=
  c = ' ' || c = '\t' || c = '\n' || c = '\r' || c.toNat = 11 || c.toNat = 12

/-- Consume the literal `lit` from the front of `s`; return the rest. -/
def expectLit : List Char → List Char → Option (List Char)
  | [], s => some s
  | _ :: _, [] => none
  | c :: cs, d :: ds => if c = d then expectLit cs ds else none

/-- Consume one or more whitespace characters (`\s+`), maximally. -/
def ws1 (s : List Char) : Option (List Char) :=
  let w := s.takeWhile isWs
  if w.isEmpty then none else some (s.dropWhile isWs)

/-- Match `\d+\.\d+` followed by the literal `suffix`, returning the whole
matched token (capture group) and the remaining input. -/
def matchNumTok (suffix : List Char) (s : List Char) : Option (List Char × List Char) :=
  match s.takeWhile Char.isDigit, s.dropWhile Char.isDigit with
  | [], _ => none
  | d1h :: d1t, r1 =>
    match r1 with
    | '.' :: r2 =>
      match r2.takeWhile Char.isDigit, r2.dropWhile Char.isDigit with
      | [], _ => none
      | d2h :: d2t, r3 =>
        match expectLit suffix r3 with
        | some r4 => some ((d1h :: d1t) ++ '.' :: ((d2h :: d2t) ++ suffix), r4)
        | none => none
    | _ => none

/-- Try the position matcher `f` at every start position, leftmost first:
the search semantics of `Regex::captures`. -/
def findFirst {α : Type} (f : List Char → Option α) : List Char → Option α
  | [] => f []
  | c :: rest =>
    match f (c :: rest) with
    | some x => some x
    | none => findFirst f rest

/-- Matcher for `Latency\s+(\d+\.\d+us)\s+(\d+\.\d+us)\s+(\d+\.\d+ms)` at one
start position, returning the three capture groups. -/
def latencyAt (s : List Char) : Option (String × String × String) :=
  (expectLit "Latency".data s).bind fun r0 =>
  (ws1 r0).bind fun r1 =>
  (matchNumTok ['u', 's'] r1).bind fun p1 =>
  (ws1 p1.2).bind fun r3 =>
  (matchNumTok ['u', 's'] r3).bind fun p2 =>
  (ws1 p2.2).bind fun r5 =>
  (matchNumTok ['m', 's'] r5).map fun p3 =>
  (⟨p1.1⟩, ⟨p2.1⟩, ⟨p3.1⟩)

/-- Matcher for `(\d+) requests in` at one start position. -/
def totalRequestsAt (s : List Char) : Option String :=
  let d := s.takeWhile Char.isDigit
  let r := s.dropWhile Char.isDigit
  if d.isEmpty then none else
    match expectLit " requests in".data r with
    | some _ => some ⟨d⟩
    | none => none

/-- Matcher for `, (\d+\.\d+GB) read` at one start position. -/
def totalDataReadAt (s : List Char) : Option String :=
  (expectLit ", ".data s).bind fun r =>
  (matchNumTok ['G', 'B'] r).bind fun p =>
  (expectLit " read".data p.2).map fun _ => ⟨p.1⟩

/-- Matcher for `Requests/sec: (\d+\.\d+)` at one start position. -/
def reqPerSecAt (s : List Char) : Option String :=
  (expectLit "Requests/sec: ".data s).bind fun r =>
  (matchNumTok [] r).map fun p => ⟨p.1⟩

/-- Matcher for `Transfer/sec:\s+(\d+\.\d+MB)` at one start position. -/
def transferPerSecAt (s : List Char) : Option String :=
  (expectLit "Transfer/sec:".data s).bind fun r0 =>
  (ws1 r0).bind fun r1 =>
  (matchNumTok ['M', 'B'] r1).map fun p => ⟨p.1⟩

/-- `latency_regex.captures(input)` with the three groups extracted. -/
def findLatency (s : List Char) : Option (String × String × String) :=
  findFirst latencyAt s

/-- `total_requests_regex.captures(input)`, group 1. -/
def findTotalRequests (s : List Char) : Option String :=
  findFirst totalRequestsAt s

/-- `total_data_read_regex.captures(input)`, group 1. -/
def findTotalDataRead (s : List Char) : Option String :=
  findFirst totalDataReadAt s

/-- `req_per_sec_regex.captures(input)`, group 1. -/
def findReqPerSec (s : List Char) : Option String :=
  findFirst reqPerSecAt s

/-- `transfer_per_sec_regex.captures(input)`, group 1. -/
def findTransferPerSec (s : List Char) : Option String :=
  findFirst transferPerSecAt s

/-- `enum MetricsError { ParseError }`. -/
inductive MetricsError where
  | ParseError
deriving DecidableEq

/-- `struct Latency` of report.rs (string fields, the `min` field is
commented out in the source). -/
structure Latency where
  avg : String
  std_env : String
  max : String
deriving DecidableEq

/-- `struct Request` of report.rs. -/
structure Request where
  total : String
  req_per_sec : String
deriving DecidableEq

/-- `struct Transfer` of report.rs. -/
structure Transfer where
  total : String
  rate : String
deriving DecidableEq

/-- `struct Metrics` of report.rs. -/
structure Metrics where
  latency : Latency
  request : Request
  transfer : Transfer
deriving DecidableEq

/-- `avg_latency` local of `from_str`: group 1 of the latency regex. -/
def avg_latency (input : String) : Option String :=
  (findLatency input.data).map (fun t => t.1)

/-- `stddev_latency` local of `from_str`: group 2 of the latency regex. -/
def stddev_latency (input : String) : Option String :=
  (findLatency input.data).map (fun t => t.2.1)

/-- `max_latency` local of `from_str`: group 3 of the latency regex. -/
def max_latency (input : String) : Option String :=
  (findLatency input.data).map (fun t => t.2.2)

/-- `impl FromStr for Metrics`: every field degrades to `""`
(`unwrap_or_default`) when its locator finds no match; the result is
always `Ok`. -/
def Metrics.from_str (input : String) : Except MetricsError Metrics :=
  Except.ok
    { latency :=
        { avg := (avg_latency input).getD ""
          std_env := (stddev_latency input).getD ""
          max := (max_latency input).getD "" }
      request :=
        { total := (findTotalRequests input.data).getD ""
          req_per_sec := (findReqPerSec input.data).getD "" }
      transfer :=
        { total := (findTotalDataRead input.data).getD ""
          rate := (findTransferPerSec input.data).getD "" } }

/-- `struct Report` of report.rs (`max_memory` is stored pre-formatted as a
string). -/
structure Report where
  framework_name : String
  max_memory : String
  metrics : Metrics
deriving DecidableEq

/-- Round `10 * num / den` (with `den > 0`) to the nearest integer, ties
to even: the rounding used when Rust formats an f64 with a fixed
precision.  Computed with integer arithmetic only so that the kernel can
evaluate it. -/
def roundTenthsHalfEven (num : Int) (den : Nat) : Int :=
  let t := 10 * num
  let f := t.fdiv den
  let r := t - f * den
  if 2 * r < (den : Int) then f
  else if (den : Int) < 2 * r then f + 1
  else if f % 2 = 0 then f else f + 1

/-- Model of Rust `format!("{:.1}", m)` on an f64 value, with the f64
embedded as a rational: one decimal digit, round half to even. -/
def fmtOneDec (m : Rat) : String :=
  let n := roundTenthsHalfEven m.num m.den
  if n < 0 then
    "-" ++ toString ((-n).toNat / 10) ++ "." ++ toString ((-n).toNat % 10)
  else
    toString (n.toNat / 10) ++ "." ++ toString (n.toNat % 10)

/-- `REPORT_HEADER` constant of report.rs. -/
def REPORT_HEADER : String :=
  "| Framework Name | Latency.Avg | Latency.Stdev | Latency.Max | Request.Total | Request.Req/Sec | Transfer.Total | Transfer.Rate | Max. Memory Usage |"

/-- The separator line of the table (the middle of `TABLE_SEPARATOR`). -/
def sepLine : String :=
  "|---|---|---|---|---|---|---|---|---|---|"

/-- `TABLE_SEPARATOR` constant of report.rs. -/
def TABLE_SEPARATOR : String :=
  "\n|---|---|---|---|---|---|---|---|---|---|\n"

/-- `Report::new`: the memory figure (an f64 in the source, embedded as a
rational) is stored as `format!("{:.1}MB", max_memory)`. -/
def Report.new (framework_name : String) (max_memory : Rat) (metrics : Metrics) : Report :=
  { framework_name := framework_name
    max_memory := fmtOneDec max_memory ++ "MB"
    metrics := metrics }

/-- The row `format!` of `Report::generate_from`: nine cells, each field
emitted verbatim. -/
def rowOf (r : Report) : String :=
  "|" ++ r.framework_name ++ "|" ++ r.metrics.latency.avg ++ "|" ++
    r.metrics.latency.std_env ++ "|" ++ r.metrics.latency.max ++ "|" ++
    r.metrics.request.total ++ "|" ++ r.metrics.request.req_per_sec ++ "|" ++
    r.metrics.transfer.total ++ "|" ++ r.metrics.transfer.rate ++ "|" ++
    r.max_memory ++ "|"

/-- `String::pop`: drop the last character. -/
def strPop (s : String) : String :=
  ⟨s.data.dropLast⟩

/-- The `for r in reports` loop of `generate_from`: push each row and a
newline onto the accumulator. -/
def pushRows (acc : String) : List Report → String
  | [] => acc
  | r :: rest => pushRows (acc ++ rowOf r ++ "\n") rest

/-- `Report::generate_from`: header, separator, one row per report, then
`res.pop()` drops the final newline. -/
def Report.generate_from (reports : List Report) : String :=
  strPop (pushRows (REPORT_HEADER ++ TABLE_SEPARATOR) reports)

/-- Join lines with a single newline and no trailing newline. -/
def joinLines : List String → String
  | [] => ""
  | [s] => s
  | s :: rest => s ++ "\n" ++ joinLines rest

/-- Concatenation of one row-plus-newline block per report: the value the
`generate_from` loop appends to its accumulator. -/
def rowsStr : List Report → String
  | [] => ""
  | r :: rest => rowOf r ++ "\n" ++ rowsStr rest

/-- The `Metrics` value every locator of which found nothing. -/
def emptyMetrics : Metrics :=
  ⟨⟨"", "", ""⟩, ⟨"", ""⟩, ⟨"", ""⟩⟩

/-- A concrete report used to evaluate the renderer. -/
def cexReport : Report :=
  Report.new "actix-web" (mkRat 137 10) emptyMetrics

/-- Decidable equality for parse results, so that concrete parses can be
checked by evaluation. -/
instance : DecidableEq (Except MetricsError Metrics) := fun a b =>
  match a, b with
  | .ok a, .ok b =>
    if h : a = b then .isTrue (h ▸ rfl) else .isFalse fun hc => h (Except.ok.inj hc)
  | .error a, .error b =>
    if h : a = b then .isTrue (h ▸ rfl) else .isFalse fun hc => h (Except.error.inj hc)
  | .ok _, .error _ => .isFalse fun hc => Except.noConfusion hc
  | .error _, .ok _ => .isFalse fun hc => Except.noConfusion hc

/-! ## Helper lemmas -/

/-- Reassociation of the token built by `matchNumTok`. -/
lemma append_dot_shape (A B suf : List Char) :
    A ++ '.' :: (B ++ suf) = (A ++ '.' :: B) ++ suf := by
  simp

/-- A token produced by `matchNumTok` is the matched digits, dot, digits and
the literal suffix; in particular it is non-empty and ends in the suffix. -/
lemma matchNumTok_shape {suf s : List Char} {tok rest : List Char}
    (h : matchNumTok suf s = some (tok, rest)) :
    (∃ l, tok = l ++ suf) ∧ tok ≠ [] := by
  unfold matchNumTok at h
  split at h
  · exact Option.noConfusion h
  · split at h
    · split at h
      · exact Option.noConfusion h
      · split at h
        · injection h with h1
          injection h1 with h2 h3
          subst h2
          exact ⟨⟨_, append_dot_shape _ _ _⟩, by simp⟩
        · exact Option.noConfusion h
    · exact Option.noConfusion h

/-- A successful `findFirst` search succeeds at some start position. -/
lemma findFirst_some {α : Type} {f : List Char → Option α} :
    ∀ {l : List Char} {x : α}, findFirst f l = some x → ∃ t, f t = some x := by
  intro l
  induction l with
  | nil => intro x h; exact ⟨[], h⟩
  | cons c rest ih =>
    intro x h
    unfold findFirst at h
    cases hf : f (c :: rest) with
    | some y => rw [hf] at h; exact ⟨c :: rest, hf.trans h⟩
    | none => rw [hf] at h; exact ih h

/-- Shape of a successful latency match: the three captured tokens are
non-empty, the first two end in the literal suffix `us`, the third in
`ms`. -/
lemma latencyAt_some {s : List Char} {a b c : String}
    (h : latencyAt s = some (a, b, c)) :
    ((∃ l, a.data = l ++ ['u', 's']) ∧ a ≠ "") ∧
      ((∃ l, b.data = l ++ ['u', 's']) ∧ b ≠ "") ∧
      ((∃ l, c.data = l ++ ['m', 's']) ∧ c ≠ "") := by
  unfold latencyAt at h
  simp only [Option.bind_eq_some, Option.map_eq_some'] at h
  obtain ⟨r0, -, r1, -, ⟨t1, r2⟩, h2, r3, -, ⟨t2, r4⟩, h4, r5, -, ⟨t3, r6⟩, h6, habc⟩ := h
  obtain ⟨⟨l1, hl1⟩, ht1⟩ := matchNumTok_shape h2
  obtain ⟨⟨l2, hl2⟩, ht2⟩ := matchNumTok_shape h4
  obtain ⟨⟨l3, hl3⟩, ht3⟩ := matchNumTok_shape h6
  obtain ⟨ha, hb, hc⟩ : (⟨t1⟩ : String) = a ∧ (⟨t2⟩ : String) = b ∧ (⟨t3⟩ : String) = c := by
    simpa [Prod.ext_iff] using habc
  subst ha hb hc
  refine ⟨⟨⟨l1, hl1⟩, ?_⟩, ⟨⟨l2, hl2⟩, ?_⟩, ⟨⟨l3, hl3⟩, ?_⟩⟩ <;>
    simp only [ne_eq, String.ext_iff] <;> simpa using fun hnil => by simp [hnil] at ht1 ht2 ht3

/-- Shape of a successful total-data-read match: the captured token is
non-empty and ends in the literal suffix `GB`. -/
lemma totalDataReadAt_some {s : List Char} {t : String}
    (h : totalDataReadAt s = some t) :
    (∃ l, t.data = l ++ ['G', 'B']) ∧ t ≠ "" := by
  unfold totalDataReadAt at h
  simp only [Option.bind_eq_some, Option.map_eq_some'] at h
  obtain ⟨r, -, ⟨tok, r2⟩, h2, -, -, ht⟩ := h
  obtain ⟨⟨l, hl⟩, htok⟩ := matchNumTok_shape h2
  subst ht
  refine ⟨⟨l, hl⟩, ?_⟩
  simp only [ne_eq, String.ext_iff]
  simpa using htok

/-- `pushRows` appends the block of rows to its accumulator. -/
lemma pushRows_eq (rs : List Report) : ∀ acc, pushRows acc rs = acc ++ rowsStr rs := by
  induction rs with
  | nil => intro acc; simp [pushRows, rowsStr]
  | cons r rest ih =>
    intro acc
    simp only [pushRows, rowsStr]
    rw [ih]
    simp [String.append_assoc]

/-- The block of rows is the newline-join of the rows plus a final
newline. -/
lemma rowsStr_join (r : Report) (rest : List Report) :
    rowsStr (r :: rest) = joinLines ((r :: rest).map rowOf) ++ "\n" := by
  induction rest generalizing r with
  | nil => simp [rowsStr, joinLines]
  | cons r2 rest ih =>
    rw [show rowsStr (r :: r2 :: rest) = rowOf r ++ "\n" ++ rowsStr (r2 :: rest) from rfl,
      ih r2]
    simp only [List.map_cons, joinLines]
    simp [String.append_assoc]

/-- Popping the final character of a string ending in a newline. -/
lemma strPop_newline (s : String) : strPop (s ++ "\n") = s := by
  apply String.ext
  show ((s ++ "\n").data).dropLast = s.data
  rw [String.data_append]
  have h : ("\n" : String).data = ['\n'] := rfl
  rw [h]
  exact List.dropLast_concat

/-- `TABLE_SEPARATOR` is a newline, the separator line, and a newline. -/
lemma TABLE_SEPARATOR_eq : TABLE_SEPARATOR = "\n" ++ sepLine ++ "\n" := by decide

/-- On a non-empty report list, `generate_from` is exactly the
newline-join of the header, the separator line and one row per report,
in input order, with no trailing newline. -/
lemma generate_from_eq (r : Report) (rest : List Report) :
    Report.generate_from (r :: rest) =
      joinLines (REPORT_HEADER :: sepLine :: (r :: rest).map rowOf) := by
  unfold Report.generate_from
  rw [pushRows_eq, rowsStr_join, TABLE_SEPARATOR_eq]
  rw [show REPORT_HEADER ++ ("\n" ++ sepLine ++ "\n") ++
      (joinLines ((r :: rest).map rowOf) ++ "\n") =
      (REPORT_HEADER ++ ("\n" ++ sepLine ++ "\n") ++
        joinLines ((r :: rest).map rowOf)) ++ "\n" by simp [String.append_assoc]]
  rw [strPop_newline]
  simp only [List.map_cons, joinLines]
  simp [String.append_assoc]

/-- Pipe census of one rendered row: ten frame pipes plus any pipes that
happen to occur inside the stored field strings. -/
lemma rowOf_pipe_count (r : Report) :
    (rowOf r).data.count '|' =
      10 + (r.framework_name.data.count '|' + r.metrics.latency.avg.data.count '|' +
        r.metrics.latency.std_env.data.count '|' + r.metrics.latency.max.data.count '|' +
        r.metrics.request.total.data.count '|' + r.metrics.request.req_per_sec.data.count '|' +
        r.metrics.transfer.total.data.count '|' + r.metrics.transfer.rate.data.count '|' +
        r.max_memory.data.count '|') := by
  have hp : ("|" : String).data.count '|' = 1 := by decide
  simp only [rowOf, String.data_append, List.count_append, hp]
  omega

set_option maxRecDepth 10000

/-! ## Claims -/

/-- C1, counterexample: the spec says the latency fields are numeric
millisecond values (a `us` magnitude divided by 1000, rounded to 4
decimals), but on an input whose latency locator matches, the parser
stores the raw matched substrings, unit suffix included. -/
theorem c1_cex :
    Metrics.from_str "    Latency   814.27us  498.47us   8.42ms   69.23%" =
      Except.ok ⟨⟨"814.27us", "498.47us", "8.42ms"⟩, ⟨"", ""⟩, ⟨"", ""⟩⟩ ∧
    ("814.27us" : String) ≠ "0.8143" ∧ ("8.42ms" : String) ≠ "8.4200" :=
  ⟨by decide, by decide, by decide⟩

/-- C1, amended: whenever the latency locator finds its three
magnitude+unit tokens, the avg, stdev and max fields of the parsed
`Metrics` are those matched substrings stored verbatim (no unit
conversion, no rounding). -/
theorem c1_latency_stored_verbatim (s a b c : String)
    (h : findLatency s.data = some (a, b, c)) :
    ∃ m, Metrics.from_str s = Except.ok m ∧
      m.latency.avg = a ∧ m.latency.std_env = b ∧ m.latency.max = c := by
  refine ⟨_, rfl, ?_, ?_, ?_⟩ <;>
    simp [Metrics.from_str, avg_latency, stddev_latency, max_latency, h]

/-- C1, witness: the amended statement evaluated on a concrete wrk-style
input. -/
theorem c1_latency_stored_verbatim_wit :
    ∃ m, Metrics.from_str "    Latency   814.27us  498.47us   8.42ms   69.23%" =
        Except.ok m ∧
      m.latency.avg = "814.27us" ∧ m.latency.std_env = "498.47us" ∧
      m.latency.max = "8.42ms" :=
  c1_latency_stored_verbatim _ "814.27us" "498.47us" "8.42ms" (by decide)

/-- C2: parsing never produces `MetricsError::ParseError` — the result is
`Ok` for every input — and each locator that finds no match puts the
empty default into its field rather than failing the parse. -/
theorem c2_parse_always_ok (s : String) :
    (∀ e : MetricsError, Metrics.from_str s ≠ Except.error e) ∧
    (findLatency s.data = none →
      ∃ m, Metrics.from_str s = Except.ok m ∧ m.latency = ⟨"", "", ""⟩) ∧
    (findTotalRequests s.data = none →
      ∃ m, Metrics.from_str s = Except.ok m ∧ m.request.total = "") ∧
    (findReqPerSec s.data = none →
      ∃ m, Metrics.from_str s = Except.ok m ∧ m.request.req_per_sec = "") ∧
    (findTotalDataRead s.data = none →
      ∃ m, Metrics.from_str s = Except.ok m ∧ m.transfer.total = "") ∧
    (findTransferPerSec s.data = none →
      ∃ m, Metrics.from_str s = Except.ok m ∧ m.transfer.rate = "") := by
  refine ⟨fun e hc => by simp [Metrics.from_str] at hc, ?_, ?_, ?_, ?_, ?_⟩ <;>
    intro h <;>
    exact ⟨_, rfl, by simp [Metrics.from_str, avg_latency, stddev_latency, max_latency, h]⟩

/-- C2, witness: the empty input, on which every locator fails, parses to
`Ok` with every field defaulted. -/
theorem c2_parse_always_ok_wit :
    Metrics.from_str "" ≠ Except.error MetricsError.ParseError ∧
    (∃ m, Metrics.from_str "" = Except.ok m ∧ m.latency = ⟨"", "", ""⟩) ∧
    (∃ m, Metrics.from_str "" = Except.ok m ∧ m.request.total = "") ∧
    (∃ m, Metrics.from_str "" = Except.ok m ∧ m.request.req_per_sec = "") ∧
    (∃ m, Metrics.from_str "" = Except.ok m ∧ m.transfer.total = "") ∧
    (∃ m, Metrics.from_str "" = Except.ok m ∧ m.transfer.rate = "") :=
  ⟨(c2_parse_always_ok "").1 MetricsError.ParseError,
   (c2_parse_always_ok "").2.1 (by decide),
   (c2_parse_always_ok "").2.2.1 (by decide),
   (c2_parse_always_ok "").2.2.2.1 (by decide),
   (c2_parse_always_ok "").2.2.2.2.1 (by decide),
   (c2_parse_always_ok "").2.2.2.2.2 (by decide)⟩

/-- C3, counterexample: the spec says zero-valued percentile latencies
render as the placeholder "-", but a report whose metrics were parsed
from input with no latency-distribution data renders a row with empty
cells and no "-" anywhere — the data model has no percentile fields at
all. -/
theorem c3_cex :
    Metrics.from_str "" = Except.ok emptyMetrics ∧
    rowOf (Report.new "x" (mkRat 137 10) emptyMetrics) = "|x||||||||13.7MB|" ∧
    ((rowOf (Report.new "x" (mkRat 137 10) emptyMetrics)).data.contains '-') = false :=
  ⟨by decide, by decide, by decide⟩

/-- C3, amended: the parsed `Metrics` carries no percentile fields — a
row is exactly the nine stored fields emitted verbatim between pipes, and
a report parsed from percentile-free input renders without any "-"
placeholder. -/
theorem c3_no_percentile_fields (r : Report) :
    rowOf r = "|" ++ r.framework_name ++ "|" ++ r.metrics.latency.avg ++ "|" ++
      r.metrics.latency.std_env ++ "|" ++ r.metrics.latency.max ++ "|" ++
      r.metrics.request.total ++ "|" ++ r.metrics.request.req_per_sec ++ "|" ++
      r.metrics.transfer.total ++ "|" ++ r.metrics.transfer.rate ++ "|" ++
      r.max_memory ++ "|" ∧
    ((rowOf (Report.new "hyperfast" (mkRat 0 1) emptyMetrics)).data.contains '-') = false :=
  ⟨rfl, by decide⟩

/-- C4, counterexample: the spec says each of the three latency tokens may
carry any unit of {us, ms, s}, but on a wrk-style line whose avg and
stdev are in milliseconds the locator matches nothing and all three
fields default to empty. -/
theorem c4_cex :
    findLatency "    Latency   0.50ms   1.22ms   41.93ms   69.23%".data = none ∧
    Metrics.from_str "    Latency   0.50ms   1.22ms   41.93ms   69.23%" =
      Except.ok emptyMetrics :=
  ⟨by decide, by decide⟩

/-- C4, amended: the latency locator accepts only the fixed unit layout
us/us/ms — whenever it matches, the first two captured tokens end in the
literal "us" and the third in the literal "ms". -/
theorem c4_units_fixed (s a b c : String)
    (h : findLatency s.data = some (a, b, c)) :
    (∃ l, a.data = l ++ ['u', 's']) ∧ (∃ l, b.data = l ++ ['u', 's']) ∧
      (∃ l, c.data = l ++ ['m', 's']) := by
  obtain ⟨t, ht⟩ := findFirst_some (show findFirst latencyAt s.data = some (a, b, c) from h)
  obtain ⟨⟨ha, -⟩, ⟨hb, -⟩, ⟨hc, -⟩⟩ := latencyAt_some ht
  exact ⟨ha, hb, hc⟩

/-- C4, witness: the amended statement evaluated on a concrete matching
input. -/
theorem c4_units_fixed_wit :
    (∃ l, ("814.27us" : String).data = l ++ ['u', 's']) ∧
      (∃ l, ("498.47us" : String).data = l ++ ['u', 's']) ∧
      (∃ l, ("8.42ms" : String).data = l ++ ['m', 's']) :=
  c4_units_fixed "    Latency   814.27us  498.47us   8.42ms   69.23%"
    "814.27us" "498.47us" "8.42ms" (by decide)

/-- C5, counterexample: the spec says the transfer-total locator captures
K/M/G byte-size suffixes, but on an input whose total carries an MB
suffix the locator finds nothing and the field defaults to empty (while
the requests locator on the same input does match). -/
theorem c5_cex :
    findTotalDataRead "  17275966 requests in 30.09s, 1.95MB read".data = none ∧
    Metrics.from_str "  17275966 requests in 30.09s, 1.95MB read" =
      Except.ok ⟨⟨"", "", ""⟩, ⟨"17275966", ""⟩, ⟨"", ""⟩⟩ :=
  ⟨by decide, by decide⟩

/-- C5, amended: the transfer-total locator accepts only the literal
suffix GB — every captured token is non-empty and ends in "GB". -/
theorem c5_read_suffix_gb (s t : String)
    (h : findTotalDataRead s.data = some t) :
    (∃ l, t.data = l ++ ['G', 'B']) ∧ t ≠ "" := by
  obtain ⟨u, hu⟩ := findFirst_some (show findFirst totalDataReadAt s.data = some t from h)
  exact totalDataReadAt_some hu

/-- C5, witness: the amended statement evaluated on a concrete GB-suffixed
input. -/
theorem c5_read_suffix_gb_wit :
    (∃ l, ("1.95GB" : String).data = l ++ ['G', 'B']) ∧ ("1.95GB" : String) ≠ "" :=
  c5_read_suffix_gb "  17275966 requests in 30.09s, 1.95GB read" "1.95GB" (by decide)

/-- C6, counterexample: for a concrete one-report table the header row and
the data row carry 10 pipes (9 cells) each, but the separator row carries
11 pipes (10 cells) — one cell more than the header, so header, separator
and data rows do not all have the same number of cells. -/
theorem c6_cex :
    Report.generate_from [cexReport] =
      REPORT_HEADER ++ "\n" ++ sepLine ++ "\n" ++ rowOf cexReport ∧
    REPORT_HEADER.data.count '|' = 10 ∧
    (rowOf cexReport).data.count '|' = 10 ∧
    sepLine.data.count '|' = 11 ∧
    sepLine.data.count '|' ≠ REPORT_HEADER.data.count '|' :=
  ⟨by decide, by decide, by decide, by decide, by decide⟩

/-- C6, amended: for every non-empty report list the table is the
newline-join of header, separator and one row per report (N+2 lines with
no trailing newline); the header row has 10 pipes (9 cells) and each data
row has 10 pipes plus any pipes inside its stored fields, but the
separator row has 11 pipes (10 cells), one more than the header. -/
theorem c6_table_structure (rs : List Report) (h : rs ≠ []) :
    Report.generate_from rs = joinLines (REPORT_HEADER :: sepLine :: rs.map rowOf) ∧
    (REPORT_HEADER :: sepLine :: rs.map rowOf).length = rs.length + 2 ∧
    REPORT_HEADER.data.count '|' = 10 ∧
    sepLine.data.count '|' = 11 ∧
    ∀ r ∈ rs, (rowOf r).data.count '|' =
      10 + (r.framework_name.data.count '|' + r.metrics.latency.avg.data.count '|' +
        r.metrics.latency.std_env.data.count '|' + r.metrics.latency.max.data.count '|' +
        r.metrics.request.total.data.count '|' + r.metrics.request.req_per_sec.data.count '|' +
        r.metrics.transfer.total.data.count '|' + r.metrics.transfer.rate.data.count '|' +
        r.max_memory.data.count '|') := by
  obtain ⟨r, rest, rfl⟩ : ∃ x xs, rs = x :: xs := by
    cases rs with
    | nil => exact absurd rfl h
    | cons x xs => exact ⟨x, xs, rfl⟩
  refine ⟨generate_from_eq r rest, by simp, by decide, by decide, ?_⟩
  intro x _
  exact rowOf_pipe_count x

/-- C6, witness: the amended statement evaluated on a concrete one-report
list. -/
theorem c6_table_structure_wit :
    Report.generate_from [cexReport] =
      joinLines (REPORT_HEADER :: sepLine :: [cexReport].map rowOf) ∧
    (REPORT_HEADER :: sepLine :: [cexReport].map rowOf).length = [cexReport].length + 2 ∧
    REPORT_HEADER.data.count '|' = 10 ∧
    sepLine.data.count '|' = 11 ∧
    ∀ r ∈ [cexReport], (rowOf r).data.count '|' =
      10 + (r.framework_name.data.count '|' + r.metrics.latency.avg.data.count '|' +
        r.metrics.latency.std_env.data.count '|' + r.metrics.latency.max.data.count '|' +
        r.metrics.request.total.data.count '|' + r.metrics.request.req_per_sec.data.count '|' +
        r.metrics.transfer.total.data.count '|' + r.metrics.transfer.rate.data.count '|' +
        r.max_memory.data.count '|') :=
  c6_table_structure [cexReport] (List.cons_ne_nil _ _)

/-- C7, counterexample: the spec says the latency fields of an
empty-string parse are the number 0.0, but they are string fields holding
the empty string (which is not a rendering of 0.0). -/
theorem c7_cex :
    Metrics.from_str "" = Except.ok emptyMetrics ∧
    emptyMetrics.latency.avg = "" ∧ emptyMetrics.latency.std_env = "" ∧
    emptyMetrics.latency.max = "" ∧ ("" : String) ≠ "0.0" :=
  ⟨by decide, rfl, rfl, rfl, by decide⟩

/-- C7, amended: parsing the empty string returns `Ok` with all seven
fields — the latency fields included, which are strings, not numbers —
equal to the empty string. -/
theorem c7_empty_parse_defaults :
    Metrics.from_str "" = Except.ok ⟨⟨"", "", ""⟩, ⟨"", ""⟩, ⟨"", ""⟩⟩ := by
  decide

/-- C8: the renderer emits one data row per report in the caller-supplied
order — rendering [A, B] and then [B, A] yields the two data rows in
those respective orders, with no sorting. -/
theorem c8_order_preserved (A B : Report) :
    Report.generate_from [A, B] = joinLines [REPORT_HEADER, sepLine, rowOf A, rowOf B] ∧
    Report.generate_from [B, A] = joinLines [REPORT_HEADER, sepLine, rowOf B, rowOf A] := by
  constructor
  · simpa using generate_from_eq A [B]
  · simpa using generate_from_eq B [A]

/-- C9: `Report::new` stores the memory figure formatted to one decimal
place with an "MB" suffix (13.7 becomes "13.7MB"), and the renderer emits
that stored string verbatim as the final cell of the row. -/
theorem c9_max_memory_format (n : String) (m : Rat) (ms : Metrics) :
    (Report.new n m ms).max_memory = fmtOneDec m ++ "MB" ∧
    rowOf (Report.new n m ms) =
      "|" ++ n ++ "|" ++ ms.latency.avg ++ "|" ++ ms.latency.std_env ++ "|" ++
        ms.latency.max ++ "|" ++ ms.request.total ++ "|" ++ ms.request.req_per_sec ++ "|" ++
        ms.transfer.total ++ "|" ++ ms.transfer.rate ++ "|" ++
        (fmtOneDec m ++ "MB") ++ "|" ∧
    (Report.new "x" (mkRat 137 10) emptyMetrics).max_memory = "13.7MB" :=
  ⟨rfl, rfl, by decide⟩

/-- C10: the three latency fields are all-or-nothing — either the latency
pattern matches and avg, stdev and max are the three (non-empty) groups
of that first match, or it matches nowhere and all three are empty. -/
theorem c10_latency_all_or_nothing (s : String) :
    ∃ m, Metrics.from_str s = Except.ok m ∧
      ((∃ a b c, findLatency s.data = some (a, b, c) ∧
          m.latency = ⟨a, b, c⟩ ∧ a ≠ "" ∧ b ≠ "" ∧ c ≠ "") ∨
        (findLatency s.data = none ∧ m.latency = ⟨"", "", ""⟩)) := by
  refine ⟨_, rfl, ?_⟩
  cases h : findLatency s.data with
  | none =>
    exact Or.inr ⟨rfl, by
      simp [Metrics.from_str, avg_latency, stddev_latency, max_latency, h]⟩
  | some t =>
    obtain ⟨a, b, c⟩ := t
    obtain ⟨u, hu⟩ := findFirst_some (show findFirst latencyAt s.data = some (a, b, c) from h)
    obtain ⟨⟨-, ha⟩, ⟨-, hb⟩, ⟨-, hc⟩⟩ := latencyAt_some hu
    exact Or.inl ⟨a, b, c, rfl, by
      simp [Metrics.from_str, avg_latency, stddev_latency, max_latency, h], ha, hb, hc⟩

/-- C10, witness: the all-or-nothing statement evaluated on a concrete
matching input. -/
theorem c10_latency_all_or_nothing_wit :
    ∃ m, Metrics.from_str "Latency 0.50us 1.22us 0.02ms" = Except.ok m ∧
      ((∃ a b c, findLatency "Latency 0.50us 1.22us 0.02ms".data = some (a, b, c) ∧
          m.latency = ⟨a, b, c⟩ ∧ a ≠ "" ∧ b ≠ "" ∧ c ≠ "") ∨
        (findLatency "Latency 0.50us 1.22us 0.02ms".data = none ∧
          m.latency = ⟨"", "", ""⟩)) :=
  c10_latency_all_or_nothing "Latency 0.50us 1.22us 0.02ms"

/-- Faithfulness check of the embedding: the parse result on the exact
input of the repository's own `metrics::ok` unit test matches the
expected value asserted by that test. -/
theorem from_str_matches_repo_test :
    Metrics.from_str ("\nRunning 30s test @ http://127.0.0.1:3000\n  16 threads and 500 connections\n  Thread Stats   Avg      Stdev     Max   +/- Stdev\n    Latency   814.27us  498.47us   8.42ms   69.23%\n    Req/Sec    36.10k     2.64k   74.83k    75.41%\n  17275966 requests in 30.09s, 1.95GB read\nRequests/sec: 574184.09\nTransfer/sec:     66.26MB\n\n691 Errors: error shutting down connection: Socket is not connected (os error 57)\n            ") =
      Except.ok ⟨⟨"814.27us", "498.47us", "8.42ms"⟩, ⟨"17275966", "574184.09"⟩,
        ⟨"1.95GB", "66.26MB"⟩⟩ := by
  decide
